import Mathlib

/-!
Verification of the monthly-digest-reports pipeline.

Shallow embedding of the pure data-transformation logic of the repository:
`utils/date_utils.py`, `utils/data_processing.py`, `modules/analytics.py`,
`modules/search_console.py` and `modules/report_generator.py`.

Modelling conventions:
* Python `datetime.date` values are a `Date` structure; `datetime - timedelta(days=n)`
  is `subDays`; `strftime('%Y-%m-%d')` is `formatYMD` (exact for four-digit years).
* Python numbers (ints and the float metric values coming from the APIs) are
  embedded as `Int`/`ℚ`; Python strings are Lean `String`s, with character-level
  slicing done on `String.data`.
* Code that can raise (`int()` on a non-numeral, indexing a missing key) returns
  `Option`, `none` standing for the raised exception.
* Calls into pandas/Plotly rendering are abstracted as function parameters
  (`render`, `validate`): the claims under verification only depend on the
  guard/reshaping logic around them.
-/

namespace MonthlyDigest

/-! ## Calendar model (proleptic Gregorian)

Embeds `calendar.isleap`, `calendar.monthrange(y, m)[1]` and the day'by'day
arithmetic of `datetime.timedelta`. -/

structure Date where
  year : Nat
  month : Nat
  day : Nat
deriving DecidableEq, Repr

/-- `calendar.isleap` (the Gregorian leap rule, also used by `datetime`). -/
def isLeap (y : Nat) : Bool :=
  (y % 4 == 0 && y % 100 != 0) || y % 400 == 0

/-- Number of days of month `m` of year `y`: `calendar.monthrange(y, m)[1]`. -/
def daysInMonth (y m : Nat) : Nat :=
  if m = 2 then (if isLeap y then 29 else 28)
  else if m = 4 ∨ m = 6 ∨ m = 9 ∨ m = 11 then 30
  else 31

/-- The dates representable by Python `datetime` (with month and day in range). -/
def ValidDate (d : Date) : Prop :=
  1 ≤ d.year ∧ 1 ≤ d.month ∧ d.month ≤ 12 ∧ 1 ≤ d.day ∧ d.day ≤ daysInMonth d.year d.month

instance (d : Date) : Decidable (ValidDate d) := by
  unfold ValidDate; infer_instance

/-- Days in the months of year `y` strictly before month `m`. -/
def daysBeforeMonth (y : Nat) : Nat → Nat
  | 0 => 0
  | 1 => 0
  | m + 2 => daysBeforeMonth y (m + 1) + daysInMonth y (m + 1)

/-- Number of leap years among years `1..y`. -/
def leapsBefore (y : Nat) : Nat := y / 4 - y / 100 + y / 400

/-- Rata die ordinal of a date (`⟨1,1,1⟩ ↦ 1`), as `datetime.date.toordinal`. -/
def rataDie (d : Date) : Nat :=
  365 * (d.year - 1) + leapsBefore (d.year - 1) + daysBeforeMonth d.year d.month + d.day

/-- The previous calendar day. -/
def predDate (d : Date) : Date :=
  if 1 < d.day then ⟨d.year, d.month, d.day - 1⟩
  else if 1 < d.month then ⟨d.year, d.month - 1, daysInMonth d.year (d.month - 1)⟩
  else ⟨d.year - 1, 12, 31⟩

/-- `d - timedelta(days := n)` of Python `datetime`. -/
def subDays (d : Date) : Nat → Date
  | 0 => d
  | n + 1 => subDays (predDate d) n

/-! ### Date formatting: `strftime('%Y-%m-%d')` -/

/-- The decimal digit character of `n % 10`. -/
def digitChar (n : Nat) : Char := Char.ofNat (48 + n % 10)

/-- Two-digit zero-padded `strftime` field (`%m`, `%d`); exact for `n < 100`. -/
def pad2 (n : Nat) : List Char := [digitChar (n / 10), digitChar n]

/-- Four-digit `strftime` year field (`%Y`); exact for `1000 ≤ n ≤ 9999`. -/
def pad4 (n : Nat) : List Char :=
  [digitChar (n / 1000), digitChar (n / 100), digitChar (n / 10), digitChar n]

/-- `datetime(y, m, d).strftime('%Y-%m-%d')` for four-digit years. -/
def formatYMD (y m d : Nat) : String :=
  String.mk (pad4 y ++ '-' :: pad2 m ++ '-' :: pad2 d)

/-- Decides whether a string has the shape `YYYY-MM-DD` (digits and dashes). -/
def ymdShape (s : String) : Bool :=
  match s.data with
  | [a, b, c, d, '-', e, f, '-', g, h] =>
    a.isDigit && b.isDigit && c.isDigit && d.isDigit &&
    e.isDigit && f.isDigit && g.isDigit && h.isDigit
  | _ => false

/-! ## `utils/date_utils.py` -/

/-- `date_utils.get_previous_month_dates`, with `datetime.today()` passed in
explicitly.  Returns `(first_day_str, last_day_str, month, year)`. -/
def get_previous_month_dates (today : Date) : String × String × Nat × Nat :=
  let month := if today.month = 1 then 12 else today.month - 1
  let year := if today.month = 1 then today.year - 1 else today.year
  let first_day_str := formatYMD year month 1
  let last_day_str := formatYMD year month (daysInMonth year month)
  (first_day_str, last_day_str, month, year)

/-! ## `modules/analytics.py`: query windows -/

/-- The comparison window `analytics.get_previous_month_data` queries: inputs are
the digest period's start and end (parsed from `YYYY-MM-DD` by `strptime`), the
output pair are the dates whose `YYYY-MM-DD` forms are passed on to
`get_analytics_data`.  `(current_end - current_start).days` is the signed rata-die
difference, embedded here for `start ≤ end` (the digest period is nonempty). -/
def get_previous_month_data_range (start_date end_date : Date) : Date × Date :=
  let current_period_days := rataDie end_date - rataDie start_date + 1
  let prev_end := subDays start_date 1
  let prev_start := subDays prev_end (current_period_days - 1)
  (prev_start, prev_end)

/-- The window `analytics.get_annual_data` queries: `start = end - timedelta(days=365)`. -/
def get_annual_data_range (end_date : Date) : Date × Date :=
  (subDays end_date 365, end_date)

/-- "12 calendar months before" a date: the same month and day of the previous
year (meaningful when that day exists, e.g. for a month-end boundary date). -/
def sameDayPrevYear (d : Date) : Date := ⟨d.year - 1, d.month, d.day⟩

/-! ## `utils/data_processing.py` -/

/-- `data_processing.calculate_growth`.  Python numbers are embedded as `ℚ`. -/
def calculate_growth (current_value previous_value : ℚ) : ℚ :=
  if previous_value = 0 then 0
  else (current_value - previous_value) / previous_value * 100

/-! ## `modules/search_console.py` -/

/-- One row of the daily-performance Search Console response (dimension `date`),
with the numeric metric fields. -/
structure SCRow where
  clicks : ℚ
  impressions : ℚ
  ctr : ℚ
  position : ℚ
deriving DecidableEq, Repr

/-- The dictionary `_calculate_aggregate_metrics` returns. -/
structure AggMetrics where
  total_clicks : ℚ
  total_impressions : ℚ
  avg_ctr : ℚ
  avg_position : ℚ
deriving DecidableEq, Repr

/-- One iteration of the accumulation loop in `_calculate_aggregate_metrics`:
state is `(total_clicks, total_impressions, sum_ctr, sum_position, count)`. -/
def aggStep (acc : ℚ × ℚ × ℚ × ℚ × Nat) (row : SCRow) : ℚ × ℚ × ℚ × ℚ × Nat :=
  (acc.1 + row.clicks, acc.2.1 + row.impressions, acc.2.2.1 + row.ctr,
   acc.2.2.2.1 + row.position, acc.2.2.2.2 + 1)

/-- `search_console._calculate_aggregate_metrics` over the response's rows. -/
def _calculate_aggregate_metrics (rows : List SCRow) : AggMetrics :=
  let st := rows.foldl aggStep (0, 0, 0, 0, 0)
  { total_clicks := st.1
    total_impressions := st.2.1
    avg_ctr := if 0 < st.2.2.2.2 then st.2.2.1 / (st.2.2.2.2 : ℚ) else 0
    avg_position := if 0 < st.2.2.2.2 then st.2.2.2.1 / (st.2.2.2.2 : ℚ) else 0 }

/-! ## `modules/analytics.py`: daily metrics reshaping -/

/-- One row of a GA4 report: the `value` fields of `dimensionValues` and
`metricValues`. -/
structure GARow where
  dimensionValues : List String
  metricValues : List String
deriving DecidableEq, Repr

/-- One per-day dictionary produced by `_process_daily_metrics`. -/
structure DailyRecord where
  date : String
  sessions : String
  users : String
  pageviews : String
  conversions : String
deriving DecidableEq, Repr

/-- The f-string rewrite of the date dimension:
`f-string of date_str[:4], date_str[4:6], date_str[6:] joined by dashes`. -/
def dashDate (s : String) : String :=
  String.mk (s.data.take 4 ++ '-' :: ((s.data.drop 4).take 2) ++ '-' :: s.data.drop 6)

/-- The body of the `for row in report.get('rows', [])` loop of
`_process_daily_metrics`; `none` models the `IndexError` Python would raise on
a row without a date dimension or with fewer than three metric values. -/
def processGARow (r : GARow) : Option DailyRecord := do
  let date_str ← r.dimensionValues.get? 0
  let sessions ← r.metricValues.get? 0
  let users ← r.metricValues.get? 1
  let pageviews ← r.metricValues.get? 2
  let conversions := if 3 < r.metricValues.length then r.metricValues.getD 3 "0" else "0"
  pure { date := dashDate date_str, sessions := sessions, users := users,
         pageviews := pageviews, conversions := conversions }

/-- `analytics._process_daily_metrics`: the whole loop, appending one record per
row in order; an exception in any iteration propagates. -/
def _process_daily_metrics : List GARow → Option (List DailyRecord)
  | [] => some []
  | r :: rs =>
    match processGARow r, _process_daily_metrics rs with
    | some o, some rest => some (o :: rest)
    | _, _ => none

/-! ## `modules/report_generator.py` -/

/-- A Python value that is either a string or an int: the metric values coming
from the APIs are decimal-numeral strings, already-converted data are ints. -/
inductive PyVal where
  | str (s : String)
  | int (n : Int)
deriving DecidableEq, Repr

/-- Value of a decimal digit character. -/
def digitVal (c : Char) : Option Nat :=
  if c.isDigit then some (c.toNat - 48) else none

/-- Parses a nonempty all-digit character list; `none` models `ValueError`. -/
def parseDigits : List Char → Option Nat
  | [] => none
  | cs => cs.foldl (fun acc c => acc.bind (fun n => (digitVal c).map (fun d => n * 10 + d)))
      (some 0)

/-- Python `int(s)` on a decimal numeral string (optionally signed). -/
def pyIntOfString (s : String) : Option Int :=
  match s.data with
  | '-' :: rest => (parseDigits rest).map (fun n => -(n : Int))
  | cs => (parseDigits cs).map (fun n => (n : Int))

/-- `int(v) if isinstance(v, str) else v` as used on device/session counts. -/
def pyInt : PyVal → Option Int
  | .str s => pyIntOfString s
  | .int n => some n

/-- The insufficient-data message of `_generate_device_insight`. -/
def insufficientDeviceMsg : String :=
  "Não há dados suficientes para análise de dispositivos."

/-- The mobile-optimization message of `_generate_device_insight`. -/
def mobileDeviceMsg : String :=
  "A maioria dos seus visitantes usa dispositivos móveis. Certifique-se de que seu site esteja otimizado para celulares, com botões de fácil acesso e carregamento rápido para melhorar a experiência desses usuários."

/-- The desktop message of `_generate_device_insight`. -/
def desktopDeviceMsg : String :=
  "A maioria dos seus visitantes usa computadores desktop. Isso pode indicar um público mais corporativo ou que acessa seu site durante o horário de trabalho. Considere otimizar o conteúdo para telas maiores e experiências mais completas."

/-- The balanced-distribution message of `_generate_device_insight`. -/
def balancedDeviceMsg : String :=
  "Seu tráfego está bem distribuído entre diferentes dispositivos. Mantenha um design responsivo que funcione bem em qualquer tamanho de tela para garantir uma boa experiência para todos os usuários."

/-- The dict comprehension converting every device count with `int()`;
`none` models a raised `ValueError`. -/
def convDevices : List (String × PyVal) → Option (List (String × Int))
  | [] => some []
  | kv :: rest =>
    match pyInt kv.2, convDevices rest with
    | some n, some rest2 => some ((kv.1, n) :: rest2)
    | _, _ => none

/-- `report_generator._generate_device_insight`: `devices` is the dict of
session counts per device category (insertion-ordered, duplicate-free keys);
`none` models the `ValueError` `int()` raises on a malformed count. -/
def _generate_device_insight (devices : List (String × PyVal)) : Option String :=
  if devices.isEmpty then some insufficientDeviceMsg
  else do
    let devices_int ← convDevices devices
    let total := (devices_int.map Prod.snd).sum
    if total = 0 then some insufficientDeviceMsg
    else
      let percentages := devices_int.map (fun kv => (kv.1, ((kv.2 : ℚ) / (total : ℚ)) * 100))
      if (percentages.lookup "mobile").isSome = true ∧
          60 < (percentages.lookup "mobile").getD 0 then some mobileDeviceMsg
      else if (percentages.lookup "desktop").isSome = true ∧
          60 < (percentages.lookup "desktop").getD 0 then some desktopDeviceMsg
      else some balancedDeviceMsg

/-- One record of `search_console` `performance_by_date` (the DataFrame row of
`_create_search_performance_chart`). -/
structure PerfRecord where
  date : String
  clicks : ℚ
  impressions : ℚ
  ctr : ℚ
  position : ℚ
deriving DecidableEq, Repr

/-- One row of the rebuilt `new_df` in `_create_search_performance_chart`. -/
structure SPoint where
  date : String
  impressions : ℚ
  clicks : ℚ
  position : ℚ
deriving DecidableEq, Repr

/-- Row-wise alignment of `pd.DataFrame` on four equal-length columns. -/
def cols4 : List String → List ℚ → List ℚ → List ℚ → List SPoint
  | d :: ds, a :: as, b :: bs, c :: cs => ⟨d, a, b, c⟩ :: cols4 ds as bs cs
  | _, _, _, _ => []

/-- The date-validation loop of `report_generator._create_search_performance_chart`
(lines 321–350): each date is repaired and checked with `pd.to_datetime`
(abstracted by `validate`); on a failing date the bare `except` handler
evaluates `logging.warning`, but `report_generator.py` never imports `logging`
at module level (unlike the trend-chart handler, which does `import logging`
locally), so a `NameError` escapes the method — modelled as `none`.  When the
loop completes, every date was kept, in order. -/
def collectValidDates (validate : String → Option String) :
    List PerfRecord → Option (List String)
  | [] => some []
  | r :: rs =>
    match validate r.date with
    | some d => (collectValidDates validate rs).map (fun ds => d :: ds)
    | none => none

/-- The `new_df` rows built by `_create_search_performance_chart` when the
validation loop completes: each metric column is truncated positionally to the
first `len(valid_dates)` entries of the original column
(`df['impressions'].values[:len(valid_dates)]` and likewise for clicks and
position); since the loop either keeps every date or raises, the truncation
keeps the full columns whenever it is reached. -/
def searchChartRows (validate : String → Option String) (perf : List PerfRecord) :
    Option (List SPoint) :=
  (collectValidDates validate perf).map (fun valid_dates =>
    cols4 valid_dates
      ((perf.map PerfRecord.impressions).take valid_dates.length)
      ((perf.map PerfRecord.clicks).take valid_dates.length)
      ((perf.map PerfRecord.position).take valid_dates.length))

/-- A concrete date validator used at concrete inputs: accepts exactly the
already-normalized dates of early January 2025. -/
def exampleValidate (s : String) : Option String :=
  if s = "2025-01-01" ∨ s = "2025-01-02" then some s else none

/-! ### The four chart builders and the template slots of `generate_html` -/

/-- One record of `analytics` `traffic_sources`. -/
structure SourceRecord where
  source : String
  medium : String
  sessions : PyVal
  conversions : PyVal
deriving Repr

/-- The `analytics` entry of `report_data`; a `none` field models a missing
dictionary key. -/
structure AnalyticsSection where
  daily_metrics : Option (List DailyRecord)
  devices : Option (List (String × PyVal))
  traffic_sources : Option (List SourceRecord)

/-- The `search_console` entry of `report_data`. -/
structure SearchSection where
  performance_by_date : Option (List PerfRecord)

/-- The `report_data` dictionary consumed by `generate_html`. -/
structure ReportData where
  analytics : Option AnalyticsSection
  search_console : Option SearchSection

/-- `report_data.get('analytics', {})` when the key is missing. -/
def emptyAnalytics : AnalyticsSection := ⟨none, none, none⟩

/-- `report_data.get('search_console', {})` when the key is missing. -/
def emptySearch : SearchSection := ⟨none⟩

/-- `_create_trend_chart`: `validate` abstracts the per-row repair and
`pd.to_datetime` check (rows whose date fails it are dropped whole, keeping
their own metric values), `render` abstracts the Plotly rendering and base64
encoding of the surviving rows.  Every `DailyRecord` carries a `date` field, so
the `'date' not in df.columns` guard can only fire through the emptiness one. -/
def _create_trend_chart (validate : String → Option String)
    (render : List DailyRecord → String) (rd : ReportData) : Option String :=
  match (rd.analytics.getD emptyAnalytics).daily_metrics with
  | none => none
  | some daily =>
    if daily.isEmpty then none
    else
      let valid := daily.filterMap (fun r => (validate r.date).map (fun d => { r with date := d }))
      if valid.isEmpty then none
      else some ("data:image/png;base64," ++ render valid)

/-- `_create_devices_chart`: the outer `Option` models an `int()` exception,
the inner one the function's `None` result.  Note: an empty devices dict is
still rendered (as an empty pie chart), only a missing key yields `None`. -/
def _create_devices_chart (render : List String → List Int → String)
    (rd : ReportData) : Option (Option String) :=
  match (rd.analytics.getD emptyAnalytics).devices with
  | none => some none
  | some devices => do
      let devices_int ← convDevices devices
      some (some ("data:image/png;base64," ++
        render (devices_int.map Prod.fst) (devices_int.map Prod.snd)))

/-- The medium-to-category mapping of `_create_traffic_sources_chart`. -/
def categorizeMedium (medium : String) : String :=
  if medium = "organic" then "Orgânico"
  else if medium = "referral" then "Referência"
  else if medium = "social" then "Social"
  else if medium = "email" then "Email"
  else if medium = "(none)" ∨ medium = "direct" then "Direto"
  else "Outros"

/-- The `sources[category] += value / sources[category] = value` dict update,
preserving insertion order. -/
def addSession (k : String) (v : Int) : List (String × Int) → List (String × Int)
  | [] => [(k, v)]
  | (k0, v0) :: rest =>
    if k0 = k then (k0, v0 + v) :: rest else (k0, v0) :: addSession k v rest

/-- The `for source in analytics_data['traffic_sources']` accumulation loop;
`none` models a raised `ValueError`. -/
def accumSources : List SourceRecord → List (String × Int) → Option (List (String × Int))
  | [], acc => some acc
  | s :: rest, acc =>
    match pyInt s.sessions with
    | some v => accumSources rest (addSession (categorizeMedium s.medium) v acc)
    | none => none

/-- `_create_traffic_sources_chart`: accumulates sessions per category, then
renders (sorting and bar-chart drawing abstracted by `render`).  The outer
`Option` models an `int()` exception. -/
def _create_traffic_sources_chart (render : List (String × Int) → String)
    (rd : ReportData) : Option (Option String) :=
  match (rd.analytics.getD emptyAnalytics).traffic_sources with
  | none => some none
  | some srcs => do
      let sources ← accumSources srcs []
      some (some ("data:image/png;base64," ++ render sources))

/-- `_create_search_performance_chart` as called from `generate_html`: the
outer `Option` models the `NameError` escaping the validation loop, the inner
one the function's `None` result.  (The `if not valid_dates` guard is kept from
the source; it cannot fire on a nonempty list, since the loop either keeps
every date or raises.) -/
def _create_search_performance_chart (validate : String → Option String)
    (render : List SPoint → String) (rd : ReportData) : Option (Option String) :=
  match (rd.search_console.getD emptySearch).performance_by_date with
  | none => some none
  | some perf =>
    if perf.isEmpty then some none
    else do
      let valid_dates ← collectValidDates validate perf
      if valid_dates.isEmpty then some none
      else
        some (some ("data:image/png;base64," ++ render (cols4 valid_dates
          ((perf.map PerfRecord.impressions).take valid_dates.length)
          ((perf.map PerfRecord.clicks).take valid_dates.length)
          ((perf.map PerfRecord.position).take valid_dates.length))))

/-- The 300px-high placeholder div bound by `generate_html` when a chart is
missing. -/
def placeholder300 : String :=
  "<div style=\"height:300px;background:#f5f5f5;display:flex;align-items:center;justify-content:center;\">Dados insuficientes para gerar o gráfico</div>"

/-- The 250px-high placeholder div (devices chart). -/
def placeholder250 : String :=
  "<div style=\"height:250px;background:#f5f5f5;display:flex;align-items:center;justify-content:center;\">Dados insuficientes para gerar o gráfico</div>"

/-- The `<img>` element bound by `generate_html` when a chart was produced. -/
def imgTag (chart alt : String) : String :=
  "<img src=\"" ++ chart ++ "\" alt=\"" ++ alt ++ "\" style=\"width:100%;height:auto;\">"

/-- `if chart: img else: placeholder` with Python truthiness (both `None` and
the empty string select the placeholder). -/
def chartSlot (chart : Option String) (alt ph : String) : String :=
  match chart with
  | some c => if c = "" then ph else imgTag c alt
  | none => ph

/-- The four chart template bindings computed by `generate_html` (lines
844–847 and 897–916); `none` models an exception escaping `generate_html`. -/
def generate_html_chart_slots (validateT validateS : String → Option String)
    (renderT : List DailyRecord → String) (renderD : List String → List Int → String)
    (renderS : List (String × Int) → String) (renderP : List SPoint → String)
    (rd : ReportData) : Option (String × String × String × String) := do
  let trend := _create_trend_chart validateT renderT rd
  let devices ← _create_devices_chart renderD rd
  let sources ← _create_traffic_sources_chart renderS rd
  let search ← _create_search_performance_chart validateS renderP rd
  some (chartSlot trend "Gráfico de tendência de visitas e usuários" placeholder300,
        chartSlot devices "Distribuição de dispositivos" placeholder250,
        chartSlot sources "Fontes de tráfego" placeholder300,
        chartSlot search "Desempenho nas buscas" placeholder300)

/-! ### `_generate_insights` and the bounce-rate rendering -/

/-- The insights `_generate_insights` can append, abstracted from their message
strings (each tagged with the number interpolated into the message, if any). -/
inductive Insight where
  | mobileTraffic
  | balancedDevices
  | highBounce
  | lowBounce
  | goodPosition (p : ℚ)
  | poorPosition (p : ℚ)
  | lowCtr (c : ℚ)
  | highCtr (c : ℚ)
  | shortSession (d : ℚ)
  | longSession (d : ℚ)
  | strongGrowth (g : ℚ)
  | strongDecline (g : ℚ)
deriving DecidableEq, Repr

/-- The `basic_metrics` fields `_generate_insights` and `generate_html` read;
values are stored parsed (`int()`/`float()` of the API's numeric strings), a
`none` field models a missing key. -/
structure BasicMetrics where
  sessions : Option Int
  bounce_rate : Option ℚ
  avg_session_duration : Option ℚ
deriving Repr

/-- The devices block of `_generate_insights` (mobile share and balance). -/
def deviceInsightBlock (devices : Option (List (String × PyVal))) :
    Option (List Insight) :=
  match devices with
  | none => some []
  | some devs => do
    let devices_int ← convDevices devs
    let total := (devices_int.map Prod.snd).sum
    if 0 < total then
      let l1 := if (devices_int.lookup "mobile").isSome = true ∧
          (6 : ℚ)/10 < ((devices_int.lookup "mobile").getD 0 : ℚ) / (total : ℚ)
        then [Insight.mobileTraffic] else []
      let l2 := if (devices_int.lookup "desktop").isSome = true ∧
          (devices_int.lookup "mobile").isSome = true ∧
          |((devices_int.lookup "desktop").getD 0 : ℚ) / (total : ℚ) -
            ((devices_int.lookup "mobile").getD 0 : ℚ) / (total : ℚ)| < (1 : ℚ)/10
        then [Insight.balancedDevices] else []
      some (l1 ++ l2)
    else some []

/-- The bounce-rate block of `_generate_insights` (lines 579–585). -/
def bounceBlock (basic : Option BasicMetrics) : List Insight :=
  match basic with
  | none => []
  | some b =>
    match b.bounce_rate with
    | none => []
    | some br =>
      if br > 70 then [Insight.highBounce]
      else if br < 40 then [Insight.lowBounce]
      else []

/-- The average-position block of `_generate_insights`. -/
def positionBlock (avg_position : Option ℚ) : List Insight :=
  match avg_position with
  | none => []
  | some p =>
    if p ≤ 10 then [Insight.goodPosition p]
    else if p > 20 then [Insight.poorPosition p]
    else []

/-- The CTR block of `_generate_insights`. -/
def ctrBlock (avg_ctr : Option ℚ) : List Insight :=
  match avg_ctr with
  | none => []
  | some c0 =>
    let c := c0 * 100
    if c < (15 : ℚ)/10 then [Insight.lowCtr c]
    else if c > 4 then [Insight.highCtr c]
    else []

/-- The session-duration block of `_generate_insights`. -/
def durationBlock (basic : Option BasicMetrics) : List Insight :=
  match basic with
  | none => []
  | some b =>
    match b.avg_session_duration with
    | none => []
    | some d =>
      if d < 60 then [Insight.shortSession d]
      else if d > 180 then [Insight.longSession d]
      else []

/-- The month-over-month growth block of `_generate_insights`; `prevSessions`
is the previous month's session count when `prev_month_data` carries analytics
data; reading the current count raises (`none`) when `basic_metrics` or its
`sessions` key is absent. -/
def growthBlock (basic : Option BasicMetrics) (prevSessions : Option Int) :
    Option (List Insight) :=
  match prevSessions with
  | none => some []
  | some prev => do
    let current ← basic.bind BasicMetrics.sessions
    let growth := calculate_growth (current : ℚ) (prev : ℚ)
    some (if growth > 20 then [Insight.strongGrowth growth]
      else if growth < -20 then [Insight.strongDecline |growth|]
      else [])

/-- `report_generator._generate_insights`, as the ordered list of appended
insights. -/
def _generate_insights (devices : Option (List (String × PyVal)))
    (basic : Option BasicMetrics) (avg_position avg_ctr : Option ℚ)
    (prevSessions : Option Int) : Option (List Insight) := do
  let dev ← deviceInsightBlock devices
  let gro ← growthBlock basic prevSessions
  some (dev ++ bounceBlock basic ++ positionBlock avg_position ++
    ctrBlock avg_ctr ++ durationBlock basic ++ gro)

/-- The bounce-rate percentage `generate_html` renders (lines 715–717):
`float(basic_metrics.get('bounce_rate', 0)) * 100`. -/
def generate_html_bounce_pct (basic : Option BasicMetrics) : ℚ :=
  ((basic.getD ⟨none, none, none⟩).bounce_rate.getD 0) * 100

end MonthlyDigest

namespace MonthlyDigest

/-! ## Calendar lemmas -/

theorem daysInMonth_ge (y m : Nat) : 28 ≤ daysInMonth y m := by
  unfold daysInMonth
  split_ifs <;> omega

theorem daysInMonth_le (y m : Nat) : daysInMonth y m ≤ 31 := by
  unfold daysInMonth
  split_ifs <;> omega

theorem isLeap_iff (y : Nat) :
    isLeap y = true ↔ (y % 4 = 0 ∧ y % 100 ≠ 0) ∨ y % 400 = 0 := by
  simp [isLeap]

theorem leapsBefore_succ (n : Nat) :
    leapsBefore (n + 1) = leapsBefore n + (if isLeap (n + 1) then 1 else 0) := by
  have e4 := Nat.succ_div n 4
  have e100 := Nat.succ_div n 100
  have e400 := Nat.succ_div n 400
  have l1 : n / 100 ≤ n / 4 := Nat.div_le_div_left (by norm_num) (by norm_num)
  have l2 : n / 400 ≤ n / 100 := Nat.div_le_div_left (by norm_num) (by norm_num)
  have hiff := isLeap_iff (n + 1)
  unfold leapsBefore
  cases hL : isLeap (n + 1) <;> simp [hL] at hiff ⊢ <;>
    split_ifs at e4 e100 e400 <;> omega

/-- `rataDie` unfolded at an explicit date. -/
theorem rataDie_mk (y m dd : Nat) :
    rataDie ⟨y, m, dd⟩ = 365 * (y - 1) + leapsBefore (y - 1) + daysBeforeMonth y m + dd := rfl

theorem rataDie_def (d : Date) :
    rataDie d = 365 * (d.year - 1) + leapsBefore (d.year - 1) +
      daysBeforeMonth d.year d.month + d.day := rfl

theorem validDate_mk (y m dd : Nat) :
    ValidDate ⟨y, m, dd⟩ ↔ 1 ≤ y ∧ 1 ≤ m ∧ m ≤ 12 ∧ 1 ≤ dd ∧ dd ≤ daysInMonth y m :=
  Iff.rfl

theorem daysBeforeMonth_succ12 (y m : Nat) (h1 : 1 ≤ m) (h2 : m ≤ 12) :
    daysBeforeMonth y (m + 1) = daysBeforeMonth y m + daysInMonth y m := by
  interval_cases m <;> rfl

theorem daysBeforeMonth_13 (y : Nat) :
    daysBeforeMonth y 13 = 365 + (if isLeap y then 1 else 0) := by
  have h1 : daysInMonth y 1 = 31 := rfl
  have h2 : daysInMonth y 2 = if isLeap y then 29 else 28 := rfl
  have h3 : daysInMonth y 3 = 31 := rfl
  have h4 : daysInMonth y 4 = 30 := rfl
  have h5 : daysInMonth y 5 = 31 := rfl
  have h6 : daysInMonth y 6 = 30 := rfl
  have h7 : daysInMonth y 7 = 31 := rfl
  have h8 : daysInMonth y 8 = 31 := rfl
  have h9 : daysInMonth y 9 = 30 := rfl
  have h10 : daysInMonth y 10 = 31 := rfl
  have h11 : daysInMonth y 11 = 30 := rfl
  have h12 : daysInMonth y 12 = 31 := rfl
  have s0 : daysBeforeMonth y 1 = 0 := rfl
  have s1 := daysBeforeMonth_succ12 y 1 (by norm_num) (by norm_num)
  have s2 := daysBeforeMonth_succ12 y 2 (by norm_num) (by norm_num)
  have s3 := daysBeforeMonth_succ12 y 3 (by norm_num) (by norm_num)
  have s4 := daysBeforeMonth_succ12 y 4 (by norm_num) (by norm_num)
  have s5 := daysBeforeMonth_succ12 y 5 (by norm_num) (by norm_num)
  have s6 := daysBeforeMonth_succ12 y 6 (by norm_num) (by norm_num)
  have s7 := daysBeforeMonth_succ12 y 7 (by norm_num) (by norm_num)
  have s8 := daysBeforeMonth_succ12 y 8 (by norm_num) (by norm_num)
  have s9 := daysBeforeMonth_succ12 y 9 (by norm_num) (by norm_num)
  have s10 := daysBeforeMonth_succ12 y 10 (by norm_num) (by norm_num)
  have s11 := daysBeforeMonth_succ12 y 11 (by norm_num) (by norm_num)
  have s12 := daysBeforeMonth_succ12 y 12 (by norm_num) (by norm_num)
  norm_num at s1 s2 s3 s4 s5 s6 s7 s8 s9 s10 s11 s12
  cases hL : isLeap y <;> simp [hL] at h2 ⊢ <;> omega

theorem predDate_spec (d : Date) (hv : ValidDate d) (h : 1 < rataDie d) :
    ValidDate (predDate d) ∧ rataDie (predDate d) + 1 = rataDie d := by
  obtain ⟨hy, hm1, hm2, hd1, hd2⟩ := hv
  by_cases hd : 1 < d.day
  · have hpd : predDate d = ⟨d.year, d.month, d.day - 1⟩ := by
      unfold predDate; rw [if_pos hd]
    rw [hpd, validDate_mk, rataDie_mk, rataDie_def]
    exact ⟨⟨hy, hm1, hm2, by omega, by omega⟩, by omega⟩
  · by_cases hm : 1 < d.month
    · have hpd : predDate d = ⟨d.year, d.month - 1, daysInMonth d.year (d.month - 1)⟩ := by
        unfold predDate; rw [if_neg hd, if_pos hm]
      rw [hpd, validDate_mk, rataDie_mk, rataDie_def]
      have hs := daysBeforeMonth_succ12 d.year (d.month - 1) (by omega) (by omega)
      rw [show d.month - 1 + 1 = d.month from by omega] at hs
      have hge := daysInMonth_ge d.year (d.month - 1)
      exact ⟨⟨hy, by omega, by omega, by omega, le_refl _⟩, by omega⟩
    · have hmm : d.month = 1 := by omega
      have hdd : d.day = 1 := by omega
      have hy2 : 2 ≤ d.year := by
        rcases Nat.lt_or_ge d.year 2 with h1 | h2
        · exfalso
          have hone : d.year = 1 := by omega
          rw [rataDie_def, hone, hmm, hdd] at h
          norm_num [leapsBefore, daysBeforeMonth] at h
        · exact h2
      have hpd : predDate d = ⟨d.year - 1, 12, 31⟩ := by
        unfold predDate; rw [if_neg hd, if_neg hm]
      rw [hpd, validDate_mk, rataDie_mk, rataDie_def, hmm, hdd]
      rw [show d.year - 1 - 1 = d.year - 2 from by omega]
      have h13 := daysBeforeMonth_13 (d.year - 1)
      have hs12 := daysBeforeMonth_succ12 (d.year - 1) 12 (by norm_num) (by norm_num)
      have hd12 : daysInMonth (d.year - 1) 12 = 31 := rfl
      have hls := leapsBefore_succ (d.year - 2)
      rw [show d.year - 2 + 1 = d.year - 1 from by omega] at hls
      have hdbm1 : daysBeforeMonth d.year 1 = 0 := rfl
      norm_num at hs12
      rw [hd12] at hs12
      refine ⟨⟨by omega, by norm_num, by norm_num, by norm_num, by rw [hd12]⟩, ?_⟩
      rw [hdbm1]
      cases hL : isLeap (d.year - 1) <;> simp [hL] at h13 hls <;> omega

theorem subDays_spec (n : Nat) (d : Date) (hv : ValidDate d) (h : n < rataDie d) :
    ValidDate (subDays d n) ∧ rataDie (subDays d n) + n = rataDie d := by
  induction n generalizing d with
  | zero => exact ⟨hv, by simp [subDays]⟩
  | succ k ih =>
    have hp := predDate_spec d hv (by omega)
    have hk : k < rataDie (predDate d) := by omega
    have hrec := ih (predDate d) hp.1 hk
    refine ⟨hrec.1, ?_⟩
    have heq : subDays d (k + 1) = subDays (predDate d) k := rfl
    rw [heq]
    omega

/-! ## Formatting lemmas -/

theorem digitChar_isDigit (n : Nat) : (digitChar n).isDigit = true := by
  unfold digitChar
  have h : n % 10 < 10 := Nat.mod_lt _ (by norm_num)
  generalize n % 10 = k at h ⊢
  interval_cases k <;> decide

theorem ymdShape_formatYMD (y m d : Nat) : ymdShape (formatYMD y m d) = true := by
  simp [formatYMD, pad4, pad2, ymdShape, digitChar_isDigit]

/-! ## C3: `get_previous_month_dates` -/

/-- C3: for every current date (with a four-digit year), `get_previous_month_dates`
returns `(first_day, last_day, month, year)` where `(month, year)` denote the
calendar month immediately preceding the current one (December of the previous
year when called in January), `first_day` is the 1st of that month, `last_day`
is its true final day — the calendar day immediately before the 1st of the
current month, between 28 and 31, with February 29 exactly in leap years — and
both dates are formatted `YYYY-MM-DD`. -/
theorem get_previous_month_dates_correct (today : Date) (hv : ValidDate today)
    (hy1 : 1001 ≤ today.year) (hy2 : today.year ≤ 9999) :
    (today.month = 1 →
      (get_previous_month_dates today).2.2.1 = 12 ∧
      (get_previous_month_dates today).2.2.2 = today.year - 1) ∧
    (today.month ≠ 1 →
      (get_previous_month_dates today).2.2.1 = today.month - 1 ∧
      (get_previous_month_dates today).2.2.2 = today.year) ∧
    (get_previous_month_dates today).1 =
      formatYMD (get_previous_month_dates today).2.2.2
        (get_previous_month_dates today).2.2.1 1 ∧
    (get_previous_month_dates today).2.1 =
      formatYMD (get_previous_month_dates today).2.2.2
        (get_previous_month_dates today).2.2.1
        (daysInMonth (get_previous_month_dates today).2.2.2
          (get_previous_month_dates today).2.2.1) ∧
    ValidDate ⟨(get_previous_month_dates today).2.2.2,
      (get_previous_month_dates today).2.2.1,
      daysInMonth (get_previous_month_dates today).2.2.2
        (get_previous_month_dates today).2.2.1⟩ ∧
    predDate ⟨today.year, today.month, 1⟩ =
      ⟨(get_previous_month_dates today).2.2.2,
        (get_previous_month_dates today).2.2.1,
        daysInMonth (get_previous_month_dates today).2.2.2
          (get_previous_month_dates today).2.2.1⟩ ∧
    ((get_previous_month_dates today).2.2.1 = 2 →
      (daysInMonth (get_previous_month_dates today).2.2.2 2 = 29 ↔
        isLeap (get_previous_month_dates today).2.2.2 = true)) ∧
    28 ≤ daysInMonth (get_previous_month_dates today).2.2.2
      (get_previous_month_dates today).2.2.1 ∧
    daysInMonth (get_previous_month_dates today).2.2.2
      (get_previous_month_dates today).2.2.1 ≤ 31 ∧
    ymdShape (get_previous_month_dates today).1 = true ∧
    ymdShape (get_previous_month_dates today).2.1 = true := by
  obtain ⟨hyy, hm1, hm2, hd1, hd2⟩ := hv
  by_cases hm : today.month = 1
  · have hgp : get_previous_month_dates today =
        (formatYMD (today.year - 1) 12 1,
         formatYMD (today.year - 1) 12 (daysInMonth (today.year - 1) 12),
         12, today.year - 1) := by
      simp [get_previous_month_dates, hm]
    have h31 : daysInMonth (today.year - 1) 12 = 31 := rfl
    simp only [hgp]
    refine ⟨fun _ => ⟨by trivial, by trivial⟩, fun hc => absurd hm hc, by trivial, by trivial, ?_, ?_,
      fun hc => absurd hc (by norm_num),
      daysInMonth_ge _ _, daysInMonth_le _ _,
      ymdShape_formatYMD _ _ _, ymdShape_formatYMD _ _ _⟩
    · rw [validDate_mk, h31]
      exact ⟨by omega, by norm_num, by norm_num, by norm_num, by norm_num⟩
    · rw [hm, h31]
      simp [predDate]
  · have hgp : get_previous_month_dates today =
        (formatYMD today.year (today.month - 1) 1,
         formatYMD today.year (today.month - 1) (daysInMonth today.year (today.month - 1)),
         today.month - 1, today.year) := by
      simp [get_previous_month_dates, hm]
    simp only [hgp]
    refine ⟨fun hc => absurd hc hm, fun _ => ⟨by trivial, by trivial⟩, by trivial, by trivial, ?_, ?_, ?_,
      daysInMonth_ge _ _, daysInMonth_le _ _,
      ymdShape_formatYMD _ _ _, ymdShape_formatYMD _ _ _⟩
    · rw [validDate_mk]
      have hge := daysInMonth_ge today.year (today.month - 1)
      exact ⟨by omega, by omega, by omega, by omega, le_refl _⟩
    · simp [predDate, show 1 < today.month from by omega]
    · intro hc
      unfold daysInMonth
      rw [if_pos rfl]
      cases hL : isLeap today.year <;> simp [hL]

/-- Witness for C3 at today = 2026-03-15 (previous month: February 2026). -/
theorem get_previous_month_dates_correct_witness :
    ValidDate ⟨2026, 3, 15⟩ ∧
    ((3 : Nat) ≠ 1 →
      (get_previous_month_dates ⟨2026, 3, 15⟩).2.2.1 = 3 - 1 ∧
      (get_previous_month_dates ⟨2026, 3, 15⟩).2.2.2 = 2026) ∧
    ymdShape (get_previous_month_dates ⟨2026, 3, 15⟩).2.1 = true :=
  ⟨by decide,
   (get_previous_month_dates_correct ⟨2026, 3, 15⟩ (by decide) (by decide) (by decide)).2.1,
   (get_previous_month_dates_correct ⟨2026, 3, 15⟩ (by decide) (by decide)
     (by decide)).2.2.2.2.2.2.2.2.2.2⟩

/-! ## C4: the `get_annual_data` window -/

/-- C4 counterexample: for end date 2024-03-31 the queried start lies 365 days
back, on 2023-04-01 (ordinal 738611), not on the date 12 calendar months
earlier (2023-03-31, ordinal 738610): the trailing window contains 2024-02-29,
so 365 days fall one day short of 12 calendar months. -/
theorem get_annual_data_counterexample :
    rataDie (get_annual_data_range ⟨2024, 3, 31⟩).1 = rataDie ⟨2023, 4, 1⟩ ∧
    sameDayPrevYear ⟨2024, 3, 31⟩ = ⟨2023, 3, 31⟩ ∧
    ValidDate ⟨2023, 3, 31⟩ ∧
    (get_annual_data_range ⟨2024, 3, 31⟩).1 ≠ sameDayPrevYear ⟨2024, 3, 31⟩ := by
  have hb : (get_annual_data_range ⟨2024, 3, 31⟩).1 = subDays ⟨2024, 3, 31⟩ 365 := by
    simp [get_annual_data_range]
  have hs := subDays_spec 365 ⟨2024, 3, 31⟩ (by decide) (by decide)
  have h1 := hs.2
  have e0 : rataDie (⟨2024, 3, 31⟩ : Date) = 738976 := by decide
  have e1 : rataDie (⟨2023, 4, 1⟩ : Date) = 738611 := by decide
  have e2 : rataDie (⟨2023, 3, 31⟩ : Date) = 738610 := by decide
  rw [hb]
  refine ⟨by omega, rfl, by decide, ?_⟩
  intro heq
  have hcg := congrArg rataDie heq
  rw [show sameDayPrevYear ⟨2024, 3, 31⟩ = ⟨2023, 3, 31⟩ from rfl, e2] at hcg
  omega

/-- C4 (amended): for every valid end date (beyond the first 365 ordinal days),
the annual window queried by `get_annual_data` ends at `end_date` and starts
exactly 365 days before it — which coincides with 12 calendar months only when
the window does not straddle a February 29. -/
theorem get_annual_data_365_days (e : Date) (hv : ValidDate e) (h : 365 < rataDie e) :
    ValidDate (get_annual_data_range e).1 ∧
    rataDie (get_annual_data_range e).1 + 365 = rataDie e ∧
    (get_annual_data_range e).2 = e := by
  have hb1 : (get_annual_data_range e).1 = subDays e 365 := by
    simp [get_annual_data_range]
  have hb2 : (get_annual_data_range e).2 = e := by
    simp [get_annual_data_range]
  have hs := subDays_spec 365 e hv h
  rw [hb1, hb2]
  exact ⟨hs.1, hs.2, rfl⟩

/-- Witness for C4's amended theorem at end date 2026-02-28. -/
theorem get_annual_data_365_days_witness :
    ValidDate ⟨2026, 2, 28⟩ ∧ 365 < rataDie ⟨2026, 2, 28⟩ ∧
    rataDie (get_annual_data_range ⟨2026, 2, 28⟩).1 + 365 = rataDie ⟨2026, 2, 28⟩ :=
  ⟨by decide, by decide,
   (get_annual_data_365_days ⟨2026, 2, 28⟩ (by decide) (by decide)).2.1⟩

/-! ## C9: the `get_previous_month_data` comparison window -/

/-- C9: for every digest period of `n` days (start and end given as dates, with
room before the period on the calendar), the comparison window queried by
`get_previous_month_data` consists of valid dates, ends exactly one day before
the digest period starts, and spans exactly `n` days — a same-length sliding
window rather than the preceding calendar month. -/
theorem get_previous_month_data_window (s e : Date) (hs : ValidDate s) (he : ValidDate e)
    (hle : rataDie s ≤ rataDie e) (hroom : rataDie e - rataDie s + 1 < rataDie s) :
    ValidDate (get_previous_month_data_range s e).1 ∧
    ValidDate (get_previous_month_data_range s e).2 ∧
    rataDie (get_previous_month_data_range s e).2 + 1 = rataDie s ∧
    rataDie (get_previous_month_data_range s e).2 + 1 =
      rataDie (get_previous_month_data_range s e).1 + (rataDie e - rataDie s + 1) := by
  have h1 : 1 < rataDie s := by omega
  have hpe := subDays_spec 1 s hs h1
  have hpe2 := hpe.2
  have hpe1 : (get_previous_month_data_range s e).2 = subDays s 1 := rfl
  have hps : (get_previous_month_data_range s e).1 =
      subDays (subDays s 1) (rataDie e - rataDie s + 1 - 1) := rfl
  have h2 : rataDie e - rataDie s + 1 - 1 < rataDie (subDays s 1) := by omega
  have hpsSpec := subDays_spec (rataDie e - rataDie s + 1 - 1) (subDays s 1) hpe.1 h2
  have hps2 := hpsSpec.2
  rw [hpe1, hps]
  exact ⟨hpsSpec.1, hpe.1, by omega, by omega⟩

set_option maxRecDepth 2000 in
/-- Witness for C9 at the 31-day digest period March 2025: the window is
29 January through 28 February 2025, as the claim describes. -/
theorem get_previous_month_data_window_witness :
    ValidDate ⟨2025, 3, 1⟩ ∧ ValidDate ⟨2025, 3, 31⟩ ∧
    rataDie ⟨2025, 3, 1⟩ ≤ rataDie ⟨2025, 3, 31⟩ ∧
    rataDie ⟨2025, 3, 31⟩ - rataDie ⟨2025, 3, 1⟩ + 1 < rataDie ⟨2025, 3, 1⟩ ∧
    get_previous_month_data_range ⟨2025, 3, 1⟩ ⟨2025, 3, 31⟩ =
      (⟨2025, 1, 29⟩, ⟨2025, 2, 28⟩) ∧
    rataDie (get_previous_month_data_range ⟨2025, 3, 1⟩ ⟨2025, 3, 31⟩).2 + 1 =
      rataDie ⟨2025, 3, 1⟩ :=
  ⟨by decide, by decide, by decide, by decide, by decide,
   (get_previous_month_data_window ⟨2025, 3, 1⟩ ⟨2025, 3, 31⟩
     (by decide) (by decide) (by decide) (by decide)).2.2.1⟩

/-! ## C5: `calculate_growth` -/

/-- C5: for all numbers, `calculate_growth(current, previous)` equals
`((current - previous) / previous) * 100` when `previous` is nonzero, and `0`
when `previous = 0`; the division is guarded and the function is total. -/
theorem calculate_growth_spec (c p : ℚ) :
    (p ≠ 0 → calculate_growth c p = (c - p) / p * 100) ∧ calculate_growth c 0 = 0 := by
  constructor
  · intro h
    simp [calculate_growth, h]
  · simp [calculate_growth]

/-- Witness for C5 at `current = 5`, `previous = 4`. -/
theorem calculate_growth_spec_witness :
    (4 : ℚ) ≠ 0 ∧ calculate_growth 5 4 = (5 - 4) / 4 * 100 :=
  ⟨by norm_num, (calculate_growth_spec 5 4).1 (by norm_num)⟩

/-! ## C1: the aggregate CTR of `_calculate_aggregate_metrics` -/

theorem foldl_aggStep (rows : List SCRow) (acc : ℚ × ℚ × ℚ × ℚ × Nat) :
    rows.foldl aggStep acc =
      (acc.1 + (rows.map SCRow.clicks).sum,
       acc.2.1 + (rows.map SCRow.impressions).sum,
       acc.2.2.1 + (rows.map SCRow.ctr).sum,
       acc.2.2.2.1 + (rows.map SCRow.position).sum,
       acc.2.2.2.2 + rows.length) := by
  induction rows generalizing acc with
  | nil => simp
  | cons r rs ih =>
    rw [List.foldl_cons, ih]
    simp only [aggStep, List.map_cons, List.sum_cons, List.length_cons, Prod.mk.injEq]
    refine ⟨by ring, by ring, by ring, by ring, by omega⟩

/-- C1 counterexample: a two-row response (each row's `ctr` consistent with its
own clicks and impressions) on which the returned `avg_ctr` (1/2, the mean of
the daily CTRs) differs from total clicks / total impressions (1/4). -/
theorem avg_ctr_ratio_counterexample :
    ((1 : ℚ) = 1 / 1 ∧ (0 : ℚ) = 0 / 3) ∧
    ([⟨1, 1, 1, 1⟩, ⟨0, 3, 0, 1⟩] : List SCRow) ≠ [] ∧
    (_calculate_aggregate_metrics [⟨1, 1, 1, 1⟩, ⟨0, 3, 0, 1⟩]).total_clicks = 1 ∧
    (_calculate_aggregate_metrics [⟨1, 1, 1, 1⟩, ⟨0, 3, 0, 1⟩]).total_impressions = 4 ∧
    (_calculate_aggregate_metrics [⟨1, 1, 1, 1⟩, ⟨0, 3, 0, 1⟩]).avg_ctr = 1 / 2 ∧
    (_calculate_aggregate_metrics [⟨1, 1, 1, 1⟩, ⟨0, 3, 0, 1⟩]).avg_ctr ≠
      (_calculate_aggregate_metrics [⟨1, 1, 1, 1⟩, ⟨0, 3, 0, 1⟩]).total_clicks /
      (_calculate_aggregate_metrics [⟨1, 1, 1, 1⟩, ⟨0, 3, 0, 1⟩]).total_impressions := by
  refine ⟨by norm_num, by simp, ?_, ?_, ?_, ?_⟩ <;>
    norm_num [_calculate_aggregate_metrics, aggStep]

/-- C1 (amended): for every response with at least one row, the `avg_ctr`
returned by `_calculate_aggregate_metrics` is the unweighted arithmetic mean of
the rows' daily `ctr` values (their sum divided by the row count), while
`total_clicks` and `total_impressions` are the period's totals; `avg_ctr` is not
in general total clicks divided by total impressions. -/
theorem avg_ctr_is_daily_mean (rows : List SCRow) (h : rows ≠ []) :
    (_calculate_aggregate_metrics rows).avg_ctr =
      (rows.map SCRow.ctr).sum / (rows.length : ℚ) ∧
    (_calculate_aggregate_metrics rows).total_clicks = (rows.map SCRow.clicks).sum ∧
    (_calculate_aggregate_metrics rows).total_impressions =
      (rows.map SCRow.impressions).sum := by
  have hlen : 0 < rows.length := List.length_pos.mpr h
  unfold _calculate_aggregate_metrics
  rw [foldl_aggStep]
  simp [hlen]

/-- Witness for C1's amended theorem at a singleton response. -/
theorem avg_ctr_is_daily_mean_witness :
    ([⟨2, 10, 1/5, 3⟩] : List SCRow) ≠ [] ∧
    (_calculate_aggregate_metrics [⟨2, 10, 1/5, 3⟩]).avg_ctr =
      (([⟨2, 10, 1/5, 3⟩] : List SCRow).map SCRow.ctr).sum /
        (([⟨2, 10, 1/5, 3⟩] : List SCRow).length : ℚ) :=
  ⟨by simp, (avg_ctr_is_daily_mean [⟨2, 10, 1/5, 3⟩] (by simp)).1⟩

/-! ## C6: `_process_daily_metrics` -/

theorem processGARow_spec (r : GARow) (h1 : r.dimensionValues ≠ [])
    (h2 : 3 ≤ r.metricValues.length) :
    processGARow r = some
      { date := dashDate (r.dimensionValues.getD 0 "")
        sessions := r.metricValues.getD 0 ""
        users := r.metricValues.getD 1 ""
        pageviews := r.metricValues.getD 2 ""
        conversions := r.metricValues.getD 3 "0" } := by
  rcases hd : r.dimensionValues with _ | ⟨a, t⟩
  · exact absurd hd h1
  · rcases hm : r.metricValues with _ | ⟨x, _ | ⟨y, _ | ⟨z, _ | ⟨w, t4⟩⟩⟩⟩ <;>
      simp [hm] at h2 <;>
      simp [processGARow, hd, hm]

/-- C6: for every analytics daily report whose rows each carry a date dimension
and at least three metric values, `_process_daily_metrics` returns exactly one
record per row, in row order, with sessions/users/pageviews/conversions copied
from the row's metric values (conversions defaulting to `"0"` when the fourth
metric is absent) and the `YYYYMMDD` date dimension rewritten to `YYYY-MM-DD`. -/
theorem process_daily_metrics_spec (rows : List GARow)
    (hwf : ∀ r ∈ rows, r.dimensionValues ≠ [] ∧ 3 ≤ r.metricValues.length) :
    (∃ out, _process_daily_metrics rows = some out ∧
      out.length = rows.length ∧
      ∀ i (hi : i < rows.length) (ho : i < out.length),
        (out.get ⟨i, ho⟩).date = dashDate ((rows.get ⟨i, hi⟩).dimensionValues.getD 0 "") ∧
        (out.get ⟨i, ho⟩).sessions = (rows.get ⟨i, hi⟩).metricValues.getD 0 "" ∧
        (out.get ⟨i, ho⟩).users = (rows.get ⟨i, hi⟩).metricValues.getD 1 "" ∧
        (out.get ⟨i, ho⟩).pageviews = (rows.get ⟨i, hi⟩).metricValues.getD 2 "" ∧
        (out.get ⟨i, ho⟩).conversions = (rows.get ⟨i, hi⟩).metricValues.getD 3 "0") ∧
    (∀ c1 c2 c3 c4 c5 c6 c7 c8 : Char,
      dashDate (String.mk [c1, c2, c3, c4, c5, c6, c7, c8]) =
        String.mk [c1, c2, c3, c4, '-', c5, c6, '-', c7, c8]) := by
  constructor
  · induction rows with
    | nil =>
      refine ⟨[], rfl, rfl, ?_⟩
      intro i hi
      simp at hi
    | cons r rs ih =>
      have hr := hwf r (by simp)
      have hrs : ∀ x ∈ rs, x.dimensionValues ≠ [] ∧ 3 ≤ x.metricValues.length :=
        fun x hx => hwf x (by simp [hx])
      obtain ⟨out, ho, hlen, hidx⟩ := ih hrs
      refine ⟨{ date := dashDate (r.dimensionValues.getD 0 "")
                sessions := r.metricValues.getD 0 ""
                users := r.metricValues.getD 1 ""
                pageviews := r.metricValues.getD 2 ""
                conversions := r.metricValues.getD 3 "0" } :: out, ?_, by simp [hlen], ?_⟩
      · show _process_daily_metrics (r :: rs) = _
        unfold _process_daily_metrics
        rw [processGARow_spec r hr.1 hr.2, ho]
      · intro i hi hio
        cases i with
        | zero => simp
        | succ n =>
          simp only [List.get_cons_succ]
          exact hidx n (by simpa using hi) (by simpa using hio)
  · intro c1 c2 c3 c4 c5 c6 c7 c8
    rfl

/-- Witness for C6 at a concrete two-row report (one row without the optional
fourth metric, one with it). -/
theorem process_daily_metrics_spec_witness :
    (∀ r ∈ ([⟨["20250301"], ["10", "8", "25"]⟩,
             ⟨["20250302"], ["12", "9", "30", "2"]⟩] : List GARow),
      r.dimensionValues ≠ [] ∧ 3 ≤ r.metricValues.length) ∧
    (∃ out, _process_daily_metrics
        [⟨["20250301"], ["10", "8", "25"]⟩, ⟨["20250302"], ["12", "9", "30", "2"]⟩] =
        some out ∧
      out.length =
        ([⟨["20250301"], ["10", "8", "25"]⟩,
          ⟨["20250302"], ["12", "9", "30", "2"]⟩] : List GARow).length ∧
      ∀ i (hi : i < ([⟨["20250301"], ["10", "8", "25"]⟩,
          ⟨["20250302"], ["12", "9", "30", "2"]⟩] : List GARow).length)
          (ho : i < out.length),
        (out.get ⟨i, ho⟩).date = dashDate
          ((([⟨["20250301"], ["10", "8", "25"]⟩,
              ⟨["20250302"], ["12", "9", "30", "2"]⟩] : List GARow).get
              ⟨i, hi⟩).dimensionValues.getD 0 "") ∧
        (out.get ⟨i, ho⟩).sessions =
          (([⟨["20250301"], ["10", "8", "25"]⟩,
             ⟨["20250302"], ["12", "9", "30", "2"]⟩] : List GARow).get
             ⟨i, hi⟩).metricValues.getD 0 "" ∧
        (out.get ⟨i, ho⟩).users =
          (([⟨["20250301"], ["10", "8", "25"]⟩,
             ⟨["20250302"], ["12", "9", "30", "2"]⟩] : List GARow).get
             ⟨i, hi⟩).metricValues.getD 1 "" ∧
        (out.get ⟨i, ho⟩).pageviews =
          (([⟨["20250301"], ["10", "8", "25"]⟩,
             ⟨["20250302"], ["12", "9", "30", "2"]⟩] : List GARow).get
             ⟨i, hi⟩).metricValues.getD 2 "" ∧
        (out.get ⟨i, ho⟩).conversions =
          (([⟨["20250301"], ["10", "8", "25"]⟩,
             ⟨["20250302"], ["12", "9", "30", "2"]⟩] : List GARow).get
             ⟨i, hi⟩).metricValues.getD 3 "0") :=
  ⟨by decide,
   (process_daily_metrics_spec
     [⟨["20250301"], ["10", "8", "25"]⟩, ⟨["20250302"], ["12", "9", "30", "2"]⟩]
     (by decide)).1⟩

/-! ## C7: `_generate_device_insight` -/

theorem convDevices_eq (devices : List (String × PyVal)) (devsN : List (String × Int))
    (hcorr : List.Forall₂ (fun a b => a.1 = b.1 ∧ pyInt a.2 = some b.2) devices devsN) :
    convDevices devices = some devsN := by
  induction hcorr with
  | nil => rfl
  | @cons a b l1 l2 h _ ih =>
    show convDevices (a :: l1) = some (b :: l2)
    unfold convDevices
    rw [h.2, ih, h.1]

theorem lookup_map_pct (l : List (String × Int)) (k : String) (t : ℚ) :
    (l.map (fun kv => (kv.1, ((kv.2 : ℚ) / t) * 100))).lookup k =
      (l.lookup k).map (fun v : Int => ((v : ℚ) / t) * 100) := by
  induction l with
  | nil => rfl
  | cons kv rest ih =>
    cases h : (k == kv.1) <;> simp [List.lookup, h, ih]

/-- C7: for every devices mapping, `_generate_device_insight` returns the
insufficient-data message when the mapping is empty or its counts total 0;
otherwise the mobile-optimization message exactly when mobile's share of total
sessions exceeds 60%, else the desktop message exactly when desktop's share
exceeds 60%, else the balanced-distribution message — and the result depends
only on the denoted counts `devsN`, so decimal-string counts behave exactly as
their integer values. -/
theorem generate_device_insight_spec (devices : List (String × PyVal))
    (devsN : List (String × Int))
    (hkeys : (devices.map Prod.fst).Nodup)
    (hcorr : List.Forall₂ (fun a b => a.1 = b.1 ∧ pyInt a.2 = some b.2) devices devsN) :
    _generate_device_insight devices = some (
      if devsN.isEmpty ∨ (devsN.map Prod.snd).sum = 0 then insufficientDeviceMsg
      else if 60 < ((((devsN.lookup "mobile").getD 0 : Int) : ℚ) /
          (((devsN.map Prod.snd).sum : Int) : ℚ)) * 100 then mobileDeviceMsg
      else if 60 < ((((devsN.lookup "desktop").getD 0 : Int) : ℚ) /
          (((devsN.map Prod.snd).sum : Int) : ℚ)) * 100 then desktopDeviceMsg
      else balancedDeviceMsg) := by
  have hconv := convDevices_eq devices devsN hcorr
  have hlen := List.Forall₂.length_eq hcorr
  unfold _generate_device_insight
  by_cases hemp : devices.isEmpty
  · have hN : devsN.isEmpty := by
      rw [List.isEmpty_iff_length_eq_zero] at hemp ⊢
      omega
    simp [hemp, hN]
  · have hN : ¬ (devsN.isEmpty = true) := by
      rw [List.isEmpty_iff_length_eq_zero] at hemp ⊢
      omega
    rw [if_neg hemp, hconv]
    by_cases htot : (devsN.map Prod.snd).sum = 0
    · simp [htot, hN]
    · simp only [Option.bind_eq_bind, Option.some_bind, htot, if_false, Option.some_inj]
      rw [if_neg (show ¬ (devsN.isEmpty = true ∨ False) from by simp [hN])]
      rw [lookup_map_pct, lookup_map_pct]
      rcases hm : devsN.lookup "mobile" with _ | mv <;>
        rcases hd : devsN.lookup "desktop" with _ | dv <;>
          simp only [Option.map_none', Option.map_some', Option.isSome_none,
            Option.isSome_some, Bool.false_eq_true, false_and, if_false,
            Option.getD_none, Option.getD_some, true_and, Int.cast_zero, zero_div,
            zero_mul]
      · norm_num
      · norm_num
        split_ifs <;> rfl
      · norm_num
        split_ifs <;> rfl
      · split_ifs <;> rfl

/-- Witness for C7: 70% mobile (as a decimal string) vs 30% desktop (as an
int) yields the mobile-optimization message. -/
theorem generate_device_insight_witness :
    _generate_device_insight [("mobile", PyVal.str "70"), ("desktop", PyVal.int 30)] =
      some mobileDeviceMsg := by
  have h := generate_device_insight_spec
    [("mobile", PyVal.str "70"), ("desktop", PyVal.int 30)]
    [("mobile", 70), ("desktop", 30)] (by decide)
    (List.Forall₂.cons ⟨rfl, by decide⟩ (List.Forall₂.cons ⟨rfl, by decide⟩ List.Forall₂.nil))
  rw [h]
  norm_num [List.lookup]

/-! ## C8: date/metric association in `_create_search_performance_chart` -/

/-- C8 (code bug): no record is ever "dropped" by the validation loop of
`_create_search_performance_chart`.  On a performance list whose first record
has an invalid date, the bare `except` handler evaluates `logging.warning`
with `logging` unbound (`report_generator.py` has no module-level `import
logging`), so a `NameError` escapes the method and `generate_html` — the loop
(`collectValidDates`), the `new_df` construction (`searchChartRows`) and the
whole builder all raise (`= none`) instead of dropping the record and keeping
the survivor's own values as the claim describes (and as the sibling
`chart_generator.create_search_performance_chart` does).  When every date is
valid the truncation keeps the full columns, and each date is paired with its
own record's impressions, clicks and position. -/
theorem search_chart_crash_on_invalid_date :
    exampleValidate "bad-date" = none ∧
    exampleValidate "2025-01-02" = some "2025-01-02" ∧
    collectValidDates exampleValidate
      [⟨"bad-date", 1, 10, 0, 5⟩, ⟨"2025-01-02", 2, 20, 0, 7⟩] = none ∧
    searchChartRows exampleValidate
      [⟨"bad-date", 1, 10, 0, 5⟩, ⟨"2025-01-02", 2, 20, 0, 7⟩] = none ∧
    _create_search_performance_chart exampleValidate (fun _ => "")
      ⟨none, some ⟨some [⟨"bad-date", 1, 10, 0, 5⟩, ⟨"2025-01-02", 2, 20, 0, 7⟩]⟩⟩ =
      none ∧
    searchChartRows exampleValidate
      [⟨"2025-01-01", 1, 10, 0, 5⟩, ⟨"2025-01-02", 2, 20, 0, 7⟩] =
      some [⟨"2025-01-01", 10, 1, 5⟩, ⟨"2025-01-02", 20, 2, 7⟩] := by
  refine ⟨by decide, by decide, by decide, by decide, by decide, by decide⟩

/-! ## C2: the chart slots of `generate_html` -/

theorem imgTag_ne_empty (c a : String) : imgTag c a ≠ "" := by
  intro h
  have hl := congrArg String.length h
  simp only [imgTag, String.length_append] at hl
  have h1 : ("<img src=\"" : String).length = 10 := by decide
  have h2 : ("" : String).length = 0 := by decide
  rw [h1, h2] at hl
  omega

theorem chartSlot_ne_empty (c : Option String) (a ph : String) (hph : ph ≠ "") :
    chartSlot c a ph ≠ "" := by
  cases c with
  | none => exact hph
  | some s =>
    show (if s = "" then ph else imgTag s a) ≠ ""
    by_cases hs : s = ""
    · rw [if_pos hs]
      exact hph
    · rw [if_neg hs]
      exact imgTag_ne_empty _ _

/-- C2: whenever `generate_html` completes, each of the four chart slots it
binds is non-empty; a slot is bound to the insufficient-data placeholder
exactly in place of a chart builder that returned `None`; and on empty input
data (a missing or empty `analytics` / `search_console` section) the
corresponding builders do return `None`. -/
theorem generate_html_chart_slots_spec
    (validateT validateS : String → Option String)
    (renderT : List DailyRecord → String) (renderD : List String → List Int → String)
    (renderS : List (String × Int) → String) (renderP : List SPoint → String)
    (rd : ReportData) (slots : String × String × String × String)
    (h : generate_html_chart_slots validateT validateS renderT renderD renderS renderP rd =
      some slots) :
    slots.1 ≠ "" ∧ slots.2.1 ≠ "" ∧ slots.2.2.1 ≠ "" ∧ slots.2.2.2 ≠ "" ∧
    (_create_trend_chart validateT renderT rd = none → slots.1 = placeholder300) ∧
    (_create_devices_chart renderD rd = some none → slots.2.1 = placeholder250) ∧
    (_create_traffic_sources_chart renderS rd = some none → slots.2.2.1 = placeholder300) ∧
    (_create_search_performance_chart validateS renderP rd = some none →
      slots.2.2.2 = placeholder300) ∧
    (rd.analytics = none →
      _create_trend_chart validateT renderT rd = none ∧
      _create_devices_chart renderD rd = some none ∧
      _create_traffic_sources_chart renderS rd = some none) ∧
    ((rd.analytics.getD emptyAnalytics).daily_metrics = some [] →
      _create_trend_chart validateT renderT rd = none) ∧
    (rd.search_console = none →
      _create_search_performance_chart validateS renderP rd = some none) ∧
    ((rd.search_console.getD emptySearch).performance_by_date = some [] →
      _create_search_performance_chart validateS renderP rd = some none) := by
  unfold generate_html_chart_slots at h
  rw [Option.bind_eq_bind] at h
  rcases Option.bind_eq_some.mp h with ⟨od, hdev, h2⟩
  rcases Option.bind_eq_some.mp h2 with ⟨os, hsrc, h3⟩
  rcases Option.bind_eq_some.mp h3 with ⟨osch, hsch, h4⟩
  rw [Option.some_inj] at h4
  subst h4
  refine ⟨chartSlot_ne_empty _ _ _ (by decide), chartSlot_ne_empty _ _ _ (by decide),
    chartSlot_ne_empty _ _ _ (by decide), chartSlot_ne_empty _ _ _ (by decide),
    ?_, ?_, ?_, ?_, ?_, ?_, ?_, ?_⟩
  · intro ht
    rw [ht]
    rfl
  · intro h6
    have h7 := hdev.symm.trans h6
    injection h7 with h8
    rw [h8]
    rfl
  · intro h6
    have h7 := hsrc.symm.trans h6
    injection h7 with h8
    rw [h8]
    rfl
  · intro h6
    have h7 := hsch.symm.trans h6
    injection h7 with h8
    rw [h8]
    rfl
  · intro ha
    exact ⟨by simp [_create_trend_chart, ha, emptyAnalytics],
      by simp [_create_devices_chart, ha, emptyAnalytics],
      by simp [_create_traffic_sources_chart, ha, emptyAnalytics]⟩
  · intro hdm
    simp [_create_trend_chart, hdm]
  · intro hsc
    simp [_create_search_performance_chart, hsc, emptySearch]
  · intro hpf
    simp [_create_search_performance_chart, hpf]

/-- Witness for C2 at an entirely missing report-data dictionary: all four
slots are the placeholders, and slots are non-empty. -/
theorem generate_html_chart_slots_witness :
    generate_html_chart_slots (fun _ => none) (fun _ => none) (fun _ => "")
      (fun _ _ => "") (fun _ => "") (fun _ => "") ⟨none, none⟩ =
      some (placeholder300, placeholder250, placeholder300, placeholder300) ∧
    (placeholder300, placeholder250, placeholder300, placeholder300).1 ≠ "" :=
  ⟨rfl,
   (generate_html_chart_slots_spec (fun _ => none) (fun _ => none) (fun _ => "")
     (fun _ _ => "") (fun _ => "") (fun _ => "") ⟨none, none⟩
     (placeholder300, placeholder250, placeholder300, placeholder300) rfl).1⟩

/-! ## C10: the bounce-rate scale in `_generate_insights` -/

theorem highBounce_notin_deviceBlock (devices : Option (List (String × PyVal)))
    (dev : List Insight) (h : deviceInsightBlock devices = some dev) :
    Insight.highBounce ∉ dev := by
  cases devices with
  | none =>
    simp [deviceInsightBlock] at h
    subst h
    simp
  | some devs =>
    simp only [deviceInsightBlock] at h
    cases hc : convDevices devs with
    | none =>
      rw [hc] at h
      simp at h
    | some l =>
      rw [hc] at h
      simp only [Option.bind_eq_bind, Option.some_bind] at h
      split_ifs at h <;>
        (rw [Option.some_inj] at h
         subst h
         simp)

theorem highBounce_notin_growthBlock (basic : Option BasicMetrics)
    (prev : Option Int) (gro : List Insight) (h : growthBlock basic prev = some gro) :
    Insight.highBounce ∉ gro := by
  cases prev with
  | none =>
    simp [growthBlock] at h
    subst h
    simp
  | some p =>
    simp only [growthBlock] at h
    cases hc : basic.bind BasicMetrics.sessions with
    | none =>
      rw [hc] at h
      simp at h
    | some cur =>
      rw [hc] at h
      simp only [Option.bind_eq_bind, Option.some_bind, Option.some_inj] at h
      subst h
      split_ifs <;> simp

theorem highBounce_notin_positionBlock (p : Option ℚ) :
    Insight.highBounce ∉ positionBlock p := by
  cases p <;> simp [positionBlock] <;> split_ifs <;> simp

theorem highBounce_notin_ctrBlock (c : Option ℚ) :
    Insight.highBounce ∉ ctrBlock c := by
  cases c <;> simp [ctrBlock] <;> split_ifs <;> simp

theorem highBounce_notin_durationBlock (basic : Option BasicMetrics) :
    Insight.highBounce ∉ durationBlock basic := by
  cases basic with
  | none => simp [durationBlock]
  | some b =>
    rcases b with ⟨s, br, dur⟩
    cases dur <;> simp [durationBlock] <;> split_ifs <;> simp

theorem bounceBlock_eval (b : BasicMetrics) (br : ℚ) (hbr : b.bounce_rate = some br)
    (h1 : br ≤ 1) : bounceBlock (some b) = [Insight.lowBounce] := by
  have he : bounceBlock (some b) =
      (match b.bounce_rate with
       | none => []
       | some br => if br > 70 then [Insight.highBounce]
         else if br < 40 then [Insight.lowBounce] else []) := rfl
  rw [he, hbr]
  show (if br > 70 then [Insight.highBounce]
    else if br < 40 then [Insight.lowBounce] else []) = _
  rw [if_neg (by linarith : ¬ br > 70), if_pos (by linarith : br < 40)]

/-- C10: when `basic_metrics['bounce_rate']` lies in `[0, 1]` — the fractional
scale under which the `bounce_rate * 100` rendering of `generate_html` yields a
percentage of at most 100 — the high-bounce-rate branch of `_generate_insights`
(`bounce_rate > 70`) is unreachable and the low-bounce-rate insight
(`bounce_rate < 40`) is always appended. -/
theorem bounce_rate_fractional_scale
    (devices : Option (List (String × PyVal))) (basic : Option BasicMetrics)
    (avg_position avg_ctr : Option ℚ) (prevSessions : Option Int)
    (b : BasicMetrics) (br : ℚ) (l : List Insight)
    (hb : basic = some b) (hbr : b.bounce_rate = some br)
    (h0 : 0 ≤ br) (h1 : br ≤ 1)
    (hres : _generate_insights devices basic avg_position avg_ctr prevSessions = some l) :
    generate_html_bounce_pct basic ≤ 100 ∧
    Insight.highBounce ∉ l ∧
    Insight.lowBounce ∈ l := by
  have hpct : generate_html_bounce_pct basic ≤ 100 := by
    simp only [generate_html_bounce_pct, hb, Option.getD_some, hbr]
    linarith
  unfold _generate_insights at hres
  rw [Option.bind_eq_bind] at hres
  rcases Option.bind_eq_some.mp hres with ⟨dev, hdev, hres2⟩
  rcases Option.bind_eq_some.mp hres2 with ⟨gro, hgro, hres3⟩
  rw [Option.some_inj] at hres3
  subst hres3
  have hbb : bounceBlock basic = [Insight.lowBounce] := by
    rw [hb]
    exact bounceBlock_eval b br hbr h1
  refine ⟨hpct, ?_, ?_⟩
  · intro hmem
    simp only [List.mem_append] at hmem
    rcases hmem with ((((hm | hm) | hm) | hm) | hm) | hm
    · exact highBounce_notin_deviceBlock devices dev hdev hm
    · rw [hbb] at hm
      simp at hm
    · exact highBounce_notin_positionBlock _ hm
    · exact highBounce_notin_ctrBlock _ hm
    · exact highBounce_notin_durationBlock _ hm
    · exact highBounce_notin_growthBlock basic prevSessions gro hgro hm
  · simp [hbb]

/-- Witness for C10 at a fractional bounce rate of 1/2 with a 90-second
average session. -/
theorem bounce_rate_fractional_scale_witness :
    generate_html_bounce_pct (some ⟨some 100, some (1/2), some 90⟩) ≤ 100 ∧
    Insight.highBounce ∉ [Insight.lowBounce] ∧
    Insight.lowBounce ∈ [Insight.lowBounce] :=
  bounce_rate_fractional_scale none (some ⟨some 100, some (1/2), some 90⟩) none none none
    ⟨some 100, some (1/2), some 90⟩ (1/2) [Insight.lowBounce] rfl rfl
    (by norm_num) (by norm_num)
    (by norm_num [_generate_insights, deviceInsightBlock, growthBlock, bounceBlock,
      positionBlock, ctrBlock, durationBlock])

end MonthlyDigest
